import Mathlib

/-!
Shallow embedding of the eventify-hub front end: the booking dialog
(`src/components/BookingDialog.tsx`), the event listing page and the
event-detail data hook.  React state is modelled as explicit records,
the asynchronous mutation outcome as a parameter of the submit handler,
and library collaborators (zod, react-hook-form, TanStack Query) by
their documented contracts at the call sites the code uses.
-/

namespace EventifyHub

/-- The three-valued booking status flag (`useState<"idle" | "success" | "error">`). -/
inductive BookingStatus
  | idle
  | success
  | error
deriving DecidableEq, Repr

/-- `Event` record (`@/types/api`), shaped as the mock data and the dialog use it:
`id`, `title`, `description`, `location`, `date`, `availableSeats`, `totalSeats`,
`price`, `image`, `gradient`. -/
structure Event where
  id : String
  title : String
  description : String
  location : String
  date : String
  availableSeats : Nat
  totalSeats : Nat
  price : Int
  image : String
  gradient : String
deriving DecidableEq, Repr

/-- Raw form field values as react-hook-form holds them.  `quantity` is read
with `valueAsNumber`, so an empty or non-numeric entry yields `NaN`, modelled
as `none`. -/
structure RawForm where
  name : String
  email : String
  mobile : String
  quantity : Option Int
deriving DecidableEq, Repr

/-- The dialog's `defaultValues` / `reset({ quantity: 1 })` state: text fields
cleared, quantity 1. -/
def defaultForm : RawForm :=
  { name := "", email := "", mobile := "", quantity := some 1 }

/-- Validated form data (`BookingFormData`), as passed to `onSubmit` after the
zod resolver accepts the raw values. -/
structure BookingFormData where
  name : String
  email : String
  mobile : String
  quantity : Int
deriving DecidableEq, Repr

/-- The body sent to `createBooking.mutateAsync`
(`{ eventId, name, email, mobile, quantity }`). -/
structure BookingRequest where
  eventId : String
  name : String
  email : String
  mobile : String
  quantity : Int
deriving DecidableEq, Repr

/-- Outcome of the awaited `createBooking.mutateAsync` call: resolution, or
rejection carrying an optional `message` property (`error?.message`). -/
inductive MutationOutcome
  | ok
  | rejected (message : Option String)
deriving DecidableEq, Repr

/-- The dialog's client state: the `open` prop, the two `useState` cells
(`bookingStatus`, `errorMessage`) and the form values. -/
structure DialogState where
  isOpen : Bool
  bookingStatus : BookingStatus
  errorMessage : String
  form : RawForm
deriving DecidableEq, Repr

/-- Initial mount state: dialog closed, `useState("idle")`, `useState("")`,
form at `defaultValues`. -/
def initialDialogState : DialogState :=
  { isOpen := false, bookingStatus := .idle, errorMessage := "", form := defaultForm }

/-- The `open`-prop change together with the `useEffect` on `[open, reset]`
(BookingDialog.tsx lines 50–56): when `open` turns true the effect runs
`reset({ quantity: 1 })`, `setBookingStatus("idle")`, `setErrorMessage("")`.
The effect re-runs only when the prop actually changes, and its body is
guarded by `if (open)`, so closing performs no reset. -/
def setOpen (b : Bool) (s : DialogState) : DialogState :=
  if b then
    if s.isOpen then s
    else { isOpen := true, bookingStatus := .idle, errorMessage := "", form := defaultForm }
  else { s with isOpen := false }

/-- The generic failure message used when the rejection carries no usable
message (`error?.message || "Booking failed. Please try again."`). -/
def genericBookingError : String := "Booking failed. Please try again."

/-- The seat-guard banner text:
``Only ${event.availableSeats} seats available. Please reduce quantity.`` -/
def seatGuardMessage (availableSeats : Nat) : String :=
  "Only " ++ toString availableSeats ++ " seats available. Please reduce quantity."

/-- `onSubmit` (BookingDialog.tsx lines 58–94).  Returns the updated dialog
state and the booking request issued to `createBooking.mutateAsync`, `none`
when no network call is made.  JavaScript `error?.message ||` falls back on a
missing message and on the empty string (both falsy). -/
def onSubmit (event : Option Event) (data : BookingFormData)
    (outcome : MutationOutcome) (s : DialogState) :
    DialogState × Option BookingRequest :=
  match event with
  | none => (s, none)
  | some e =>
    if (e.availableSeats : Int) < data.quantity then
      ({ s with bookingStatus := .error,
                errorMessage := seatGuardMessage e.availableSeats }, none)
    else
      let req : BookingRequest :=
        { eventId := e.id, name := data.name, email := data.email,
          mobile := data.mobile, quantity := data.quantity }
      match outcome with
      | .ok => ({ s with bookingStatus := .success }, some req)
      | .rejected msg =>
        ({ s with bookingStatus := .error,
                  errorMessage :=
                    match msg with
                    | none => genericBookingError
                    | some m => if m = "" then genericBookingError else m },
         some req)

/-- `const quantity = watch("quantity") || 1` (line 47): a falsy watched value
(`NaN` from an empty field, or `0`) is replaced by 1. -/
def watchedQuantity (q : Option Int) : Int :=
  match q with
  | none => 1
  | some n => if n = 0 then 1 else n

/-- `const totalAmount = event ? event.price * quantity : 0` (line 48). -/
def totalAmount (event : Option Event) (q : Option Int) : Int :=
  match event with
  | some e => e.price * watchedQuantity q
  | none => 0

/-- The submit button's `disabled` attribute (line 203):
`createBooking.isPending || event.availableSeats === 0`. -/
def submitDisabled (isPending : Bool) (e : Event) : Bool :=
  isPending || e.availableSeats == 0

/-! ### The zod `bookingSchema` (BookingDialog.tsx lines 13–18)

`z.string().email()` delegates to zod's email regular expression
(case-insensitive):
`^(?!\.)(?!.*\.\.)([A-Z0-9_'+\-\.]*)[A-Z0-9_+-]@([A-Z0-9][A-Z0-9\-]*\.)+[A-Z]{2,}$`.
It is embedded below as a decision procedure over the character list. -/

/-- Characters allowed in the email local part other than its final
character: letters, digits, underscore, apostrophe, plus, hyphen, dot. -/
def isLocalChar (c : Char) : Bool :=
  c.isAlphanum || c = '_' || c = '\'' || c = '+' || c = '-' || c = '.'

/-- Characters allowed as the final character of the email local part
(`[A-Z0-9_+-]`): no dot and no apostrophe. -/
def isLocalLastChar (c : Char) : Bool :=
  c.isAlphanum || c = '_' || c = '+' || c = '-'

/-- The local part `([A-Z0-9_'+\-\.]*)[A-Z0-9_+-]`: nonempty, every
character from the local class, the last from the restricted class. -/
def localPartOk : List Char → Bool
  | [] => false
  | [c] => isLocalLastChar c
  | c :: rest => isLocalChar c && localPartOk rest

/-- The `(?!.*\.\.)` lookahead: no two consecutive dots anywhere. -/
def noDoubleDot : List Char → Bool
  | [] => true
  | [_] => true
  | c :: d :: rest => !(c = '.' && d = '.') && noDoubleDot (d :: rest)

/-- One domain label `[A-Z0-9][A-Z0-9\-]*`: leading alphanumeric character,
then alphanumerics and hyphens. -/
def labelOk : List Char → Bool
  | [] => false
  | c :: rest => c.isAlphanum && rest.all (fun x => x.isAlphanum || x = '-')

/-- The top-level domain `[A-Z]{2,}`: at least two letters. -/
def tldOk (l : List Char) : Bool :=
  decide (2 ≤ l.length) && l.all Char.isAlpha

/-- Split a character list on a separator character (every occurrence, no
collapsing), as `String.split` does on the underlying characters. -/
def splitOnChar (sep : Char) : List Char → List (List Char)
  | [] => [[]]
  | c :: rest =>
    if c = sep then [] :: splitOnChar sep rest
    else
      match splitOnChar sep rest with
      | [] => [[c]]
      | h :: t => (c :: h) :: t

/-- The domain `([A-Z0-9][A-Z0-9\-]*\.)+[A-Z]{2,}`: at least one dotted
label followed by a top-level domain. -/
def domainOk (d : List Char) : Bool :=
  match (splitOnChar '.' d).reverse with
  | [] => false
  | [_] => false
  | tld :: labels => tldOk tld && labels.all labelOk

/-- Zod's email validator.  Neither side of the regex admits `@`, so the
string must split into exactly a local part and a domain; the two negative
lookaheads forbid a leading dot and any double dot. -/
def isZodEmail (s : String) : Bool :=
  match splitOnChar '@' s.toList with
  | [localPart, domain] =>
    localPartOk localPart && domainOk domain &&
    noDoubleDot s.toList && !(s.toList.head? = some '.')
  | _ => false

/-- Field-level error messages produced by the zod resolver, one slot per
schema field; `none` means the field passed. -/
structure FieldErrors where
  name : Option String
  email : Option String
  mobile : Option String
  quantity : Option String
deriving DecidableEq, Repr

/-- The `bookingSchema` checks: `name` min 2, `email` zod email, `mobile`
min 10, `quantity` a number that is at least 1 (`NaN` fails `z.number()`). -/
def bookingSchemaCheck (f : RawForm) : FieldErrors :=
  { name :=
      if 2 ≤ f.name.length then none
      else some "Name must be at least 2 characters"
    email :=
      if isZodEmail f.email then none
      else some "Invalid email address"
    mobile :=
      if 10 ≤ f.mobile.length then none
      else some "Mobile number must be at least 10 digits"
    quantity :=
      match f.quantity with
      | none => some "Expected number, received nan"
      | some q => if 1 ≤ q then none else some "Quantity must be at least 1" }

/-- Schema validation succeeds exactly when no field reports an error. -/
def validationPasses (f : RawForm) : Bool :=
  let e := bookingSchemaCheck f
  e.name.isNone && e.email.isNone && e.mobile.isNone && e.quantity.isNone

/-- `handleSubmit(onSubmit)`: react-hook-form invokes the submit callback
with the parsed values only when the resolver reports no errors; otherwise
the callback is not called. -/
def handleSubmitGate (f : RawForm) : Option BookingFormData :=
  match f.quantity with
  | none => none
  | some q =>
    if validationPasses f then
      some { name := f.name, email := f.email, mobile := f.mobile, quantity := q }
    else none

/-! ### The event-detail hook `useEvent` (src/unnamed/part_001)

`useEvent` wraps TanStack Query's `useQuery` with `enabled: !!id` and a
query function that throws `"Event ID is required"` before any network
call when `id` is falsy, and otherwise issues `GET /events/{id}`. -/

/-- What running the query function does: either throw before any network
call, or issue one HTTP GET to the given path. -/
inductive QueryFnRun
  | thrown (message : String)
  | requests (path : String)
deriving DecidableEq, Repr

/-- The hook's externally visible status, following `useQuery`'s result. -/
inductive QueryStatus
  | pending
  | failure
  | ok
deriving DecidableEq, Repr

/-- The part of the `useQuery` result the specification talks about: the
status, the surfaced error message, and the network request issued (if any). -/
structure HookResult where
  status : QueryStatus
  errorMessage : Option String
  request : Option String
deriving DecidableEq, Repr

/-- JavaScript double negation `!!id` for `id : string | undefined`:
`undefined` and the empty string are falsy. -/
def truthyId (id : Option String) : Bool :=
  match id with
  | none => false
  | some s => !(s = "")

/-- The `queryFn` of `useEvent` (lines 8–13): `if (!id) throw new
Error('Event ID is required')`, otherwise fetch `/events/{id}`. -/
def eventQueryFn (id : Option String) : QueryFnRun :=
  if truthyId id then
    .requests ("/events/" ++ (match id with | some s => s | none => ""))
  else
    .thrown "Event ID is required"

/-- TanStack Query's documented `useQuery` contract at this call site: when
`enabled` is false the query function is never invoked and the result stays
`pending` with no error; when enabled, a throwing query function yields the
failure status with the thrown message, and a fetching one issues its
request (the happy path resolving to `ok`). -/
def runUseQuery (enabled : Bool) (fn : QueryFnRun) : HookResult :=
  if enabled then
    match fn with
    | .thrown m => { status := .failure, errorMessage := some m, request := none }
    | .requests p => { status := .ok, errorMessage := none, request := some p }
  else
    { status := .pending, errorMessage := none, request := none }

/-- The `useEvent` hook (lines 5–16): `useQuery` with `enabled: !!id`. -/
def useEvent (id : Option String) : HookResult :=
  runUseQuery (truthyId id) (eventQueryFn id)

/-! ### The event listing page (src/unnamed/part_000)

The `Events` component holds `searchTerm`, `locationFilter` and
`dateFilter` state and renders the grid by mapping `allEvents.map(...)`
(lines 184–195); none of the three filter states occurs in that
expression. -/

/-- The component's hard-coded `allEvents` mock list. -/
def allEvents : List Event :=
  [ { id := "1", title := "Tech Innovation Summit 2025",
      description := "Join industry leaders discussing the future of AI, blockchain, and quantum computing in this groundbreaking summit.",
      location := "San Francisco, CA", date := "2025-03-15T09:00:00",
      availableSeats := 150, totalSeats := 500, price := 299,
      image := "event-tech.jpg", gradient := "bg-gradient-blue" },
    { id := "2", title := "Summer Music Festival",
      description := "Experience three days of incredible live music from top artists across multiple genres under the stars.",
      location := "Austin, TX", date := "2025-06-20T18:00:00",
      availableSeats := 45, totalSeats := 1000, price := 199,
      image := "event-music.jpg", gradient := "bg-gradient-pink" },
    { id := "3", title := "Business Networking Gala",
      description := "Connect with entrepreneurs, investors, and business leaders in an elegant evening of networking and insights.",
      location := "New York, NY", date := "2025-04-10T19:00:00",
      availableSeats := 200, totalSeats := 300, price := 149,
      image := "event-business.jpg", gradient := "bg-gradient-secondary" },
    { id := "4", title := "Digital Marketing Conference",
      description := "Learn the latest strategies in SEO, social media, and content marketing from industry experts.",
      location := "Miami, FL", date := "2025-05-05T10:00:00",
      availableSeats := 80, totalSeats := 250, price := 179,
      image := "event-tech.jpg", gradient := "bg-gradient-primary" },
    { id := "5", title := "Jazz & Blues Night",
      description := "An intimate evening with renowned jazz and blues musicians in a historic venue.",
      location := "New Orleans, LA", date := "2025-04-22T20:00:00",
      availableSeats := 120, totalSeats := 200, price := 89,
      image := "event-music.jpg", gradient := "bg-gradient-blue" },
    { id := "6", title := "Startup Pitch Competition",
      description := "Watch innovative startups pitch their ideas to top investors and win funding opportunities.",
      location := "Boston, MA", date := "2025-05-18T14:00:00",
      availableSeats := 180, totalSeats := 350, price := 99,
      image := "event-business.jpg", gradient := "bg-gradient-pink" } ]

/-- The list of events the `Events` page's grid renders, as a function of
the three filter-control states.  The grid is
`allEvents.map((event, index) => ... <EventCard {...event} />)`
(lines 184–195): the filter states never appear in it. -/
def renderedEventGrid (searchTerm locationFilter dateFilter : String) :
    List Event :=
  (allEvents.map (fun e => e))

/-! ### Dialog operations and step function (for the temporal claims) -/

/-- An externally triggered dialog operation: the parent toggling the
`open` prop, or a form submission (already past the resolver) whose
mutation resolves with the given outcome. -/
inductive DialogOp
  | setOpenOp (b : Bool)
  | submitOp (data : BookingFormData) (outcome : MutationOutcome)
deriving DecidableEq, Repr

/-- One step of the dialog: `setOpenOp` runs the open/close prop change with
its reset effect, `submitOp` runs `onSubmit`. -/
def step (event : Option Event) (s : DialogState) (op : DialogOp) : DialogState :=
  match op with
  | .setOpenOp b => setOpen b s
  | .submitOp d o => (onSubmit event d o s).1

/-- The status after one dialog step, as a function of the operation: opening
a closed dialog yields `idle`; closing changes nothing; a submission (with an
event present) yields `error` on a seat-guard violation or a rejection and
`success` on completion, from any prior status. -/
def statusAfter (event : Option Event) (s : DialogState) (op : DialogOp) :
    BookingStatus :=
  match op with
  | .setOpenOp true => if s.isOpen then s.bookingStatus else .idle
  | .setOpenOp false => s.bookingStatus
  | .submitOp d o =>
    match event with
    | none => s.bookingStatus
    | some e =>
      if (e.availableSeats : Int) < d.quantity then .error
      else
        match o with
        | .ok => .success
        | .rejected _ => .error

/-- The transition relation on the status flag exactly as the specification
enumerates it: idle to success, idle to error, error to idle, success to
idle, and nothing else. -/
def claimedTransitions (before after : BookingStatus) : Bool :=
  (before == .idle && after == .success) ||
  (before == .idle && after == .error) ||
  (before == .error && after == .idle) ||
  (before == .success && after == .idle)

/-- The error-message invariant: whenever the status flag reads `error`,
the banner message is a non-empty string. -/
def statusInvariant (s : DialogState) : Prop :=
  s.bookingStatus = .error → s.errorMessage ≠ ""

/-! ### Concrete sample data used by witnesses and counterexamples -/

/-- A concrete event with three remaining seats. -/
def sampleEvent : Event :=
  { id := "evt-1", title := "Sample Event", description := "A sample.",
    location := "Austin, TX", date := "2025-06-20T18:00:00",
    availableSeats := 3, totalSeats := 10, price := 299,
    image := "event-music.jpg", gradient := "bg-gradient-pink" }

/-- Concrete validated form data requesting two tickets. -/
def sampleForm : BookingFormData :=
  { name := "John Doe", email := "john@example.com",
    mobile := "1234567890", quantity := 2 }

/-- A concrete run: the dialog is opened from its initial (closed) state. -/
def runOpen : DialogState :=
  step (some sampleEvent) initialDialogState (.setOpenOp true)

/-- The run continues: a submission whose mutation is rejected with the
message `"Payment declined"`. -/
def runError : DialogState :=
  step (some sampleEvent) runOpen
    (.submitOp sampleForm (.rejected (some "Payment declined")))

/-- The run continues: the user resubmits directly from the error state and
the mutation resolves. -/
def runResubmit : DialogState :=
  step (some sampleEvent) runError (.submitOp sampleForm .ok)

/-! ## Helper lemmas -/

/-- The seat-guard banner message is never the empty string. -/
lemma seatGuardMessage_ne_empty (n : Nat) : seatGuardMessage n ≠ "" := by
  intro h
  have h2 := congrArg String.length h
  simp only [seatGuardMessage] at h2
  rw [String.length_append, String.length_append] at h2
  have hO : (0 : Nat) < ("Only " : String).length := by decide
  have hE : ("" : String).length = 0 := by decide
  omega

/-! ## Claim theorems -/

/-- Claim C1: whenever a submitted booking form requests a quantity
exceeding the event's available seats, the submit handler sets the status
to error with the message stating the available count, and no booking
request is issued. -/
theorem eventify_C1_seat_guard (e : Event) (d : BookingFormData)
    (o : MutationOutcome) (s : DialogState)
    (h : (e.availableSeats : Int) < d.quantity) :
    (onSubmit (some e) d o s).1.bookingStatus = .error ∧
    (onSubmit (some e) d o s).1.errorMessage = seatGuardMessage e.availableSeats ∧
    (onSubmit (some e) d o s).2 = none := by
  simp [onSubmit, h]

/-- Claim C1, witness: requesting 5 tickets when only 3 seats remain. -/
theorem eventify_C1_witness :
    ((3 : Nat) : Int) < (5 : Int) ∧
    ((onSubmit (some sampleEvent) { sampleForm with quantity := 5 } .ok
        initialDialogState).1.bookingStatus = .error ∧
     (onSubmit (some sampleEvent) { sampleForm with quantity := 5 } .ok
        initialDialogState).1.errorMessage = seatGuardMessage 3 ∧
     (onSubmit (some sampleEvent) { sampleForm with quantity := 5 } .ok
        initialDialogState).2 = none) :=
  ⟨by decide,
   eventify_C1_seat_guard sampleEvent { sampleForm with quantity := 5 } .ok
     initialDialogState (by decide)⟩

/-- Claim C3: whenever the dialog transitions from closed to open, the form
resets to its defaults (quantity 1), the status resets to idle and the
error message is cleared, regardless of the prior state. -/
theorem eventify_C3_open_resets (s : DialogState) (h : s.isOpen = false) :
    setOpen true s =
      { isOpen := true, bookingStatus := .idle, errorMessage := "",
        form := defaultForm } ∧
    defaultForm.quantity = some 1 := by
  constructor
  · simp [setOpen, h]
  · rfl

/-- Claim C3, witness: reopening after an error outcome with dirty fields. -/
theorem eventify_C3_witness :
    setOpen true
      { isOpen := false, bookingStatus := .error,
        errorMessage := "Payment declined",
        form := { name := "Bob", email := "b@c.com", mobile := "0000000000",
                  quantity := some 7 } } =
      { isOpen := true, bookingStatus := .idle, errorMessage := "",
        form := defaultForm } ∧
    defaultForm.quantity = some 1 :=
  eventify_C3_open_resets _ rfl

/-- Claim C5 counterexample: with unit price 299 and the entered quantity 0
(a falsy value), the displayed total is 299, not 299 multiplied by 0: the
watched quantity is coerced to 1 before the multiplication. -/
theorem eventify_C5_counterexample :
    totalAmount (some sampleEvent) (some 0) ≠ sampleEvent.price * 0 ∧
    totalAmount (some sampleEvent) (some 0) = sampleEvent.price * 1 := by
  decide

/-- Claim C5 (amended): for every nonzero entered quantity the displayed
total is unit price times quantity; an entered 0 or an empty entry is
coerced to quantity 1 before the multiplication. -/
theorem eventify_C5_total (e : Event) (q : Int) (h : q ≠ 0) :
    totalAmount (some e) (some q) = e.price * q ∧
    totalAmount (some e) none = e.price * 1 ∧
    totalAmount (some e) (some 0) = e.price * 1 := by
  refine ⟨?_, rfl, rfl⟩
  simp [totalAmount, watchedQuantity, h]

/-- Claim C5, witness: three tickets at unit price 299. -/
theorem eventify_C5_witness :
    totalAmount (some sampleEvent) (some 3) = sampleEvent.price * 3 ∧
    totalAmount (some sampleEvent) none = sampleEvent.price * 1 ∧
    totalAmount (some sampleEvent) (some 0) = sampleEvent.price * 1 :=
  eventify_C5_total sampleEvent 3 (by decide)

/-- Claim C7: the submit button is disabled exactly when a booking request
is pending or the event has zero available seats. -/
theorem eventify_C7_submit_disabled (p : Bool) (e : Event) :
    submitDisabled p e = true ↔ (p = true ∨ e.availableSeats = 0) := by
  simp [submitDisabled]

/-- Claim C7, witness: not pending, zero seats left. -/
theorem eventify_C7_witness :
    submitDisabled false { sampleEvent with availableSeats := 0 } = true ↔
      (false = true ∨
        ({ sampleEvent with availableSeats := 0 } : Event).availableSeats = 0) :=
  eventify_C7_submit_disabled false { sampleEvent with availableSeats := 0 }

/-- Claim C8: the grid the listing page renders is independent of the three
filter-control states (two-run noninterference), and always equals the full
event list. -/
theorem eventify_C8_filter_noninterference :
    (∀ s₁ l₁ d₁ s₂ l₂ d₂ : String,
        renderedEventGrid s₁ l₁ d₁ = renderedEventGrid s₂ l₂ d₂) ∧
    (∀ s l d : String, renderedEventGrid s l d = allEvents) := by
  constructor <;> intros <;> simp [renderedEventGrid]

/-- Claim C2 counterexample: with an absent identifier the hook issues no
network request, but it does not yield an error result either — the query
is disabled, so it stays pending and never surfaces the
`"Event ID is required"` message. -/
theorem eventify_C2_counterexample :
    (useEvent none).request = none ∧
    (useEvent none).status = .pending ∧
    (useEvent none).status ≠ .failure ∧
    (useEvent none).errorMessage ≠ some "Event ID is required" := by
  decide

/-- Claim C2 (amended): with an absent identifier (undefined or empty) no
network call is issued and the query stays disabled in the pending state;
the query function itself, were it invoked, would throw
`"Event ID is required"` before any network call. -/
theorem eventify_C2_disabled_query (id : Option String)
    (h : id = none ∨ id = some "") :
    (useEvent id).request = none ∧
    (useEvent id).status = .pending ∧
    eventQueryFn id = .thrown "Event ID is required" := by
  rcases h with h | h <;> subst h <;> decide

/-- Claim C2, witness: the hook called with `undefined`. -/
theorem eventify_C2_witness :
    (useEvent none).request = none ∧
    (useEvent none).status = .pending ∧
    eventQueryFn none = .thrown "Event ID is required" :=
  eventify_C2_disabled_query none (Or.inl rfl)

/-- Claim C4 counterexample: a rejection carrying the message `""` does not
display that message — the handler falls back to the generic string, because
JavaScript `||` treats the empty string as absent. -/
theorem eventify_C4_counterexample :
    (onSubmit (some sampleEvent) sampleForm (.rejected (some ""))
        initialDialogState).1.errorMessage = genericBookingError ∧
    (onSubmit (some sampleEvent) sampleForm (.rejected (some ""))
        initialDialogState).1.errorMessage ≠ "" := by
  decide

/-- Claim C4 (amended): a rejected booking request sets the status to error;
a non-empty rejection message is displayed verbatim, while an absent or
empty message falls back to the generic string; form fields and the open
state are left untouched, so the dialog stays open for resubmission. -/
theorem eventify_C4_error_path (e : Event) (d : BookingFormData)
    (s : DialogState) (m : Option String)
    (hq : d.quantity ≤ (e.availableSeats : Int)) :
    (onSubmit (some e) d (.rejected m) s).1.bookingStatus = .error ∧
    (onSubmit (some e) d (.rejected m) s).1.form = s.form ∧
    (onSubmit (some e) d (.rejected m) s).1.isOpen = s.isOpen ∧
    (∀ msg, m = some msg → msg ≠ "" →
      (onSubmit (some e) d (.rejected m) s).1.errorMessage = msg) ∧
    ((m = none ∨ m = some "") →
      (onSubmit (some e) d (.rejected m) s).1.errorMessage =
        genericBookingError) := by
  have hlt : ¬ ((e.availableSeats : Int) < d.quantity) := not_lt.mpr hq
  refine ⟨by simp [onSubmit, hlt], by simp [onSubmit, hlt],
          by simp [onSubmit, hlt], ?_, ?_⟩
  · intro msg hm hne
    subst hm
    simp [onSubmit, hlt, hne]
  · rintro (hm | hm) <;> subst hm <;> simp [onSubmit, hlt]

/-- Claim C4, witness: a rejection with message `"Payment declined"` against
a request for two of three available seats. -/
theorem eventify_C4_witness :
    (onSubmit (some sampleEvent) sampleForm
        (.rejected (some "Payment declined"))
        initialDialogState).1.bookingStatus = .error ∧
    (onSubmit (some sampleEvent) sampleForm
        (.rejected (some "Payment declined"))
        initialDialogState).1.form = initialDialogState.form ∧
    (onSubmit (some sampleEvent) sampleForm
        (.rejected (some "Payment declined"))
        initialDialogState).1.isOpen = initialDialogState.isOpen ∧
    (∀ msg, (some "Payment declined" : Option String) = some msg → msg ≠ "" →
      (onSubmit (some sampleEvent) sampleForm
          (.rejected (some "Payment declined"))
          initialDialogState).1.errorMessage = msg) ∧
    (((some "Payment declined" : Option String) = none ∨
        (some "Payment declined" : Option String) = some "") →
      (onSubmit (some sampleEvent) sampleForm
          (.rejected (some "Payment declined"))
          initialDialogState).1.errorMessage = genericBookingError) :=
  eventify_C4_error_path sampleEvent sampleForm initialDialogState
    (some "Payment declined") (by decide)

/-- Claim C6: schema validation passes exactly when the name has at least 2
characters, the email satisfies zod's address syntax, the mobile string has
at least 10 characters and the quantity is a number of at least 1; `"Al"`
passes and `"A"` fails with the minimum-length message; `"not-an-email"`
fails and `"a@b.com"` passes; and the submit callback runs exactly when
validation passes. -/
theorem eventify_C6_validation :
    (∀ f : RawForm,
        validationPasses f = true ↔
          (2 ≤ f.name.length ∧ isZodEmail f.email = true ∧
           10 ≤ f.mobile.length ∧ ∃ q, f.quantity = some q ∧ 1 ≤ q)) ∧
    validationPasses
      { name := "Al", email := "a@b.com", mobile := "1234567890",
        quantity := some 1 } = true ∧
    validationPasses
      { name := "A", email := "a@b.com", mobile := "1234567890",
        quantity := some 1 } = false ∧
    (bookingSchemaCheck
      { name := "A", email := "a@b.com", mobile := "1234567890",
        quantity := some 1 }).name = some "Name must be at least 2 characters" ∧
    isZodEmail "not-an-email" = false ∧
    validationPasses
      { name := "Al", email := "not-an-email", mobile := "1234567890",
        quantity := some 1 } = false ∧
    isZodEmail "a@b.com" = true ∧
    (∀ f : RawForm, (handleSubmitGate f).isSome = validationPasses f) := by
  refine ⟨?_, by decide, by decide, by decide, by decide, by decide,
          by decide, ?_⟩
  · intro f
    cases hq : f.quantity with
    | none =>
      simp only [validationPasses, bookingSchemaCheck, hq]
      split_ifs <;> simp_all
    | some q =>
      simp only [validationPasses, bookingSchemaCheck, hq]
      split_ifs <;> simp_all
  · intro f
    unfold handleSubmitGate
    cases hq : f.quantity with
    | none => simp [validationPasses, bookingSchemaCheck, hq]
    | some q =>
      cases hv : validationPasses f <;> simp [hv]

/-- Claim C6, witness: a valid form with name `"Al"` and email `"a@b.com"`. -/
theorem eventify_C6_witness :
    validationPasses
      { name := "Al", email := "a@b.com", mobile := "1234567890",
        quantity := some 1 } = true ↔
      (2 ≤ ("Al" : String).length ∧ isZodEmail "a@b.com" = true ∧
       10 ≤ ("1234567890" : String).length ∧
       ∃ q, (some 1 : Option Int) = some q ∧ 1 ≤ q) :=
  eventify_C6_validation.1
    { name := "Al", email := "a@b.com", mobile := "1234567890",
      quantity := some 1 }

/-- Claim C9 counterexample: resubmitting directly from the error state and
succeeding performs an error-to-success status transition, which is outside
the enumerated transition set. -/
theorem eventify_C9_counterexample :
    runError.bookingStatus = .error ∧
    runResubmit.bookingStatus = .success ∧
    claimedTransitions runError.bookingStatus runResubmit.bookingStatus =
      false := by
  decide

/-- Claim C9 (amended): the status after each operation is exactly: idle on
the closed-to-open transition; unchanged on close, on an open of an already
open dialog, or on a submission with no event; error on a seat-guard
violation or a rejection; success on completion — the submission transitions
apply from any prior status, so resubmission from the error state may land
on success or error. -/
theorem eventify_C9_status_transitions (ev : Option Event) (s : DialogState)
    (op : DialogOp) :
    (step ev s op).bookingStatus = statusAfter ev s op := by
  cases op with
  | setOpenOp b =>
    cases b with
    | false => simp [step, setOpen, statusAfter]
    | true =>
      by_cases h : s.isOpen <;> simp [step, setOpen, statusAfter, h]
  | submitOp d o =>
    cases ev with
    | none => simp [step, onSubmit, statusAfter]
    | some e =>
      by_cases h : (e.availableSeats : Int) < d.quantity
      · cases o <;> simp [step, onSubmit, statusAfter, h]
      · cases o <;> simp [step, onSubmit, statusAfter, h]

/-- Claim C10: the error-message invariant holds initially, is preserved by
every dialog operation (open, close, seat-guard rejection, request success,
request failure), and immediately after a closed-to-open transition the
status is idle with an empty error message. -/
theorem eventify_C10_error_message_invariant :
    statusInvariant initialDialogState ∧
    (∀ (ev : Option Event) (s : DialogState) (op : DialogOp),
        statusInvariant s → statusInvariant (step ev s op)) ∧
    (∀ (ev : Option Event) (s : DialogState), s.isOpen = false →
        (step ev s (.setOpenOp true)).bookingStatus = .idle ∧
        (step ev s (.setOpenOp true)).errorMessage = "") := by
  refine ⟨by simp [statusInvariant, initialDialogState], ?_, ?_⟩
  · intro ev s op h
    cases op with
    | setOpenOp b =>
      cases b with
      | false => simpa [step, setOpen, statusInvariant] using h
      | true =>
        by_cases ho : s.isOpen
        · simpa [step, setOpen, statusInvariant, ho] using h
        · simp [step, setOpen, statusInvariant, ho]
    | submitOp d o =>
      cases ev with
      | none => simpa [step, onSubmit, statusInvariant] using h
      | some e =>
        by_cases hg : (e.availableSeats : Int) < d.quantity
        · simp only [step, onSubmit, statusInvariant, if_pos hg]
          intro _
          exact seatGuardMessage_ne_empty e.availableSeats
        · cases o with
          | ok => simp [step, onSubmit, statusInvariant, hg]
          | rejected m =>
            cases m with
            | none =>
              simp only [step, onSubmit, statusInvariant, if_neg hg]
              intro _
              decide
            | some msg =>
              by_cases hm : msg = ""
              · simp only [step, onSubmit, statusInvariant, if_neg hg, hm]
                intro _
                decide
              · simp only [step, onSubmit, statusInvariant, if_neg hg,
                           if_neg hm]
                intro _
                exact hm
  · intro ev s h
    constructor <;> simp [step, setOpen, h]

/-- Claim C10, witness: the invariant holds after opening the dialog from
the initial state, and the open transition clears the message. -/
theorem eventify_C10_witness :
    statusInvariant
      (step (some sampleEvent) initialDialogState (.setOpenOp true)) ∧
    (step (some sampleEvent) initialDialogState
        (.setOpenOp true)).errorMessage = "" :=
  ⟨eventify_C10_error_message_invariant.2.1 (some sampleEvent)
      initialDialogState (.setOpenOp true)
      eventify_C10_error_message_invariant.1,
   (eventify_C10_error_message_invariant.2.2 (some sampleEvent)
      initialDialogState rfl).2⟩

end EventifyHub
